import Mathlib

/-!
Verification development for a two-stage protein-structure pipeline:
`02_ActSeek_process_pipeline.py` (accession extraction, AlphaFold structure
download, config validation, ActSeek batch command construction and logging)
and `seed_selector.py` (seed structure selection and config rewrite).

The Python scripts are shallowly embedded: the filesystem is a partial map
from path strings to file contents, the network is an oracle mapping URLs to
an optional response body (`some body` = 2xx response, `none` = non-2xx
status or transport error, i.e. `requests.RequestException`), and JSON
values are an inductive type.  `sys.exit` / uncaught exceptions are
`Except.error`.
-/

/-- JSON-like values as stored in `config.json` and manipulated by the
scripts (`json.load` / `json.dump`). -/
inductive JVal where
  | str (s : String)
  | num (n : Int)
  | bool (b : Bool)
  | null
  | obj (fields : List (String × JVal))
deriving Repr

/-- A parsed `config.json`: an ordered mapping from keys to JSON values
(Python dicts preserve insertion order). -/
abbrev Config := List (String × JVal)

/-- `config[k]` / `config.get(k)` lookup: first binding of the key. -/
def cfgGet : Config → String → Option JVal
  | [], _ => none
  | (k', v) :: rest, k => if k' = k then some v else cfgGet rest k

/-- `config[k] = v` assignment: replace the first binding of the key, or
append a new binding at the end (Python dict semantics). -/
def cfgSet : Config → String → JVal → Config
  | [], k, v => [(k, v)]
  | (k', v') :: rest, k, v =>
      if k' = k then (k, v) :: rest else (k', v') :: cfgSet rest k v

/-- Python truthiness of `config.get(k)`:
`None` is falsy, `""` is falsy, `0` is falsy, `False` is falsy, an empty
dict is falsy; everything else is truthy. -/
def pyTruthy : Option JVal → Bool
  | none => false
  | some (JVal.str s) => !(s == "")
  | some (JVal.num n) => !(n == 0)
  | some (JVal.bool b) => b
  | some JVal.null => false
  | some (JVal.obj fields) => !fields.isEmpty

/-- Escape a character for a JSON string literal (as `json.dumps` does for
the characters that can occur here). -/
def jsonEscapeChar (c : Char) : String :=
  if c = '"' then "\\\"" else
  if c = '\\' then "\\\\" else
  if c = '\n' then "\\n" else
  if c = '\t' then "\\t" else
  String.singleton c

/-- Escape a string for a JSON string literal. -/
def jsonEscape (s : String) : String :=
  String.join (s.data.map jsonEscapeChar)

mutual

/-- `json.dumps` of a JSON value (default separators). -/
def jsonDumps : JVal → String
  | JVal.str s => "\"" ++ jsonEscape s ++ "\""
  | JVal.num n => toString n
  | JVal.bool b => if b then "true" else "false"
  | JVal.null => "null"
  | JVal.obj fields => "\x7b" ++ jsonDumpsFields fields ++ "\x7d"

/-- `json.dumps` of the comma-separated field list of an object. -/
def jsonDumpsFields : List (String × JVal) → String
  | [] => ""
  | [(k, v)] => "\"" ++ jsonEscape k ++ "\": " ++ jsonDumps v
  | (k, v) :: rest =>
      "\"" ++ jsonEscape k ++ "\": " ++ jsonDumps v ++ ", " ++ jsonDumpsFields rest

end

mutual

/-- Python `str()` of a JSON value, as used in the command construction
(`str(config[...])`).  Strings pass through, integers print in decimal,
booleans print as `True`/`False`, `None` prints as `None`, and a dict
prints in Python `repr` style with single-quoted keys. -/
def pyStr : JVal → String
  | JVal.str s => s
  | JVal.num n => toString n
  | JVal.bool b => if b then "True" else "False"
  | JVal.null => "None"
  | JVal.obj fields => "\x7b" ++ pyStrFields fields ++ "\x7d"

/-- Python `repr()` of a JSON value nested inside a dict. -/
def pyRepr : JVal → String
  | JVal.str s => "\x27" ++ s ++ "\x27"
  | JVal.num n => toString n
  | JVal.bool b => if b then "True" else "False"
  | JVal.null => "None"
  | JVal.obj fields => "\x7b" ++ pyStrFields fields ++ "\x7d"

/-- Field list of a Python dict `repr`. -/
def pyStrFields : List (String × JVal) → String
  | [] => ""
  | [(k, v)] => "\x27" ++ k ++ "\x27: " ++ pyRepr v
  | (k, v) :: rest =>
      "\x27" ++ k ++ "\x27: " ++ pyRepr v ++ ", " ++ pyStrFields rest

end

/-- The network: an HTTP GET oracle.  `fetch url = some body` models a 2xx
response with that body; `fetch url = none` models a non-2xx status or a
transport error (both surface as `requests.RequestException` after
`raise_for_status`). -/
structure Oracle where
  fetch : String → Option String

/-- Observable state of one pipeline run: the local filesystem (path to
file contents; `none` = the path does not exist), the parsed contents of
`config.json` (in its own slot, standing for the JSON text on disk), the
ordered log of network requests issued, and the ordered log of external
tool invocations. -/
structure St where
  fs : String → Option String
  configFile : Option Config
  netCalls : List String
  toolRuns : List (List JVal)

/-- Write a file: `open(path, 'w')` / `open(path, 'wb')` followed by a full
write truncates and replaces any previous content. -/
def fsWrite (f : String → Option String) (k v : String) : String → Option String :=
  fun p => if p = k then some v else f p

/-- AlphaFold naming convention: `f"AF-{acc}-F1-model_v4.pdb"`. -/
def afFilename (acc : String) : String :=
  "AF-" ++ acc ++ "-F1-model_v4.pdb"

/-- `os.path.join` for the relative paths used by the scripts. -/
def pathJoin (a b : String) : String := a ++ "/" ++ b

/-- Download URL: `f"https://alphafold.ebi.ac.uk/files/{filename}"`. -/
def afUrl (filename : String) : String :=
  "https://alphafold.ebi.ac.uk/files/" ++ filename

/-- Local path of a candidate structure: `os.path.join(pdb_output_folder,
af_pdb_filename)`. -/
def candPath (dir acc : String) : String := pathJoin dir (afFilename acc)

/-- Download URL of a candidate structure. -/
def candUrl (acc : String) : String := afUrl (afFilename acc)

/-- `os.path.basename`: the component after the last slash. -/
def basename (s : String) : String :=
  ⟨(s.data.reverse.takeWhile (fun c => !(c = '/'))).reverse⟩

/-- Python `str.isspace` characters relevant to `str.strip()`. -/
def pyIsSpace (c : Char) : Bool :=
  c = ' ' || c = '\t' || c = '\n' || c = '\r' || c = '\x0b' || c = '\x0c'

/-- Python `str.strip()`: drop whitespace from both ends. -/
def pyStrip (s : String) : String :=
  ⟨((s.data.dropWhile pyIsSpace).reverse.dropWhile pyIsSpace).reverse⟩

/-- Build a `String` from a list of characters. -/
def stringOfChars (l : List Char) : String := ⟨l⟩

/-- Python `s.split(sep)` for a one-character separator: fields between
separator occurrences, keeping empty fields, and `[""]` on the empty
string. -/
def splitOnChar (sep : Char) : List Char → List (List Char)
  | [] => [[]]
  | c :: rest =>
      let r := splitOnChar sep rest
      if c = sep then [] :: r
      else
        match r with
        | [] => [[c]]
        | f :: fs => (c :: f) :: fs

/-- `line.split('\t')` as a list of strings. -/
def splitTab (s : String) : List String :=
  (splitOnChar '\t' s.data).map stringOfChars

/-- The character class `[A-Z0-9]` of the accession pattern. -/
def isUpperAlnum (c : Char) : Bool :=
  ('A' ≤ c && c ≤ 'Z') || ('0' ≤ c && c ≤ '9')

/-- One anchored attempt of the regular expression `AF-([A-Z0-9]+)-` at the
head of the character list: literal `AF-`, then a greedy non-empty run of
`[A-Z0-9]`, then a literal `-`.  (No shorter run can succeed on
backtracking, because every character of the run is in the class and hence
is not `-`.)  Returns the captured group. -/
def afMatchAt (l : List Char) : Option (List Char) :=
  match l with
  | a :: b :: c :: rest =>
      if a = 'A' ∧ b = 'F' ∧ c = '-' then
        let run := rest.takeWhile isUpperAlnum
        let rest2 := rest.dropWhile isUpperAlnum
        if run ≠ [] ∧ rest2.head? = some '-' then some run else none
      else none
  | _ => none

/-- `re.search(r"AF-([A-Z0-9]+)-", s)`: try each start position from the
left, returning the capture of the leftmost match. -/
def afSearch : List Char → Option (List Char)
  | [] => none
  | c :: rest =>
      match afMatchAt (c :: rest) with
      | some g => some g
      | none => afSearch rest

/-- Process one line of the hits file (STEP 3):
`parts = line.strip().split('\t')`; if there are at least two fields,
search the second field for the accession pattern; otherwise skip. -/
def lineAccession (line : String) : Option String :=
  match splitTab (pyStrip line) with
  | _ :: second :: _ => (afSearch second.data).map stringOfChars
  | _ => none

/-- The raw accession list collected over all lines, in file order, with
duplicates (`accessions` in the script). -/
def extractAccessions (lines : List String) : List String :=
  lines.filterMap lineAccession

/-- `sorted(set(accessions))`: deduplicate, then sort lexicographically
(`unique_accessions` in the script). -/
def uniqueAccessions (lines : List String) : List String :=
  List.insertionSort (· ≤ ·) (extractAccessions lines).dedup

/-- The body of the STEP 4 loop for one accession, which is also the
structure-fetch operation shared with the seed: compute the local path; if
the file exists, use it as is (no request, no write); otherwise GET the
AlphaFold URL and, on success, open the path and write the response body.
Returns `some path` when the structure is resolved and `none` when the
download failed (the `except` branch). -/
def fetchStep (oracle : Oracle) (dir acc : String) (st : St) : Option String × St :=
  let path := candPath dir acc
  if (st.fs path).isSome then
    (some path, st)
  else
    let url := candUrl acc
    let st1 : St := { st with netCalls := st.netCalls ++ [url] }
    match oracle.fetch url with
    | some body => (some path, { st1 with fs := fsWrite st1.fs path body })
    | none => (none, st1)

/-- STEP 4 loop over all unique accessions.  On a resolved structure the
accession is written to the protein list (`test.txt`); on a failed
download it is skipped (`continue`) and the loop proceeds with the
remaining accessions.  Returns the final state and the manifest lines. -/
def step4Loop (oracle : Oracle) (dir : String) : List String → St → St × List String
  | [], st => (st, [])
  | acc :: rest, st =>
      match fetchStep oracle dir acc st with
      | (some _, st1) =>
          let r := step4Loop oracle dir rest st1
          (r.1, acc :: r.2)
      | (none, st1) => step4Loop oracle dir rest st1

/-- Contents of a file holding one entry per line (`f"{acc}\n"` writes). -/
def renderLines (l : List String) : String :=
  String.join (l.map (fun a => a ++ "\n"))

/-- STEP 4: open `test.txt` with mode `'w'` (truncating), run the download
loop, leaving the manifest file holding exactly the written accessions. -/
def step4 (oracle : Oracle) (dir manifestPath : String) (accs : List String) (st : St) : St :=
  let r := step4Loop oracle dir accs st
  { r.1 with fs := fsWrite r.1.fs manifestPath (renderLines r.2) }

/-- An accession is resolved by the STEP 4 loop if its structure file is
already on disk (cache hit) or its download succeeds. -/
def resolves (oracle : Oracle) (dir : String) (st : St) (acc : String) : Bool :=
  (st.fs (candPath dir acc)).isSome || (oracle.fetch (candUrl acc)).isSome

/-- STEP 5 of the pipeline script: require `config.json`, load it, require
a truthy `seed_protein_file`, then ensure the seed structure exists,
downloading it if absent — a failed seed download is fatal
(`sys.exit`).  Returns the config and seed path on success, together with
the state as left at process end (so aborted runs expose the requests
made before the abort). -/
def step5 (oracle : Oracle) (st : St) : Except String (Config × String) × St :=
  match st.configFile with
  | none => (Except.error "config.json not found. Run the seed selector first.", st)
  | some config =>
    let seedVal := cfgGet config "seed_protein_file"
    if pyTruthy seedVal then
      match seedVal with
      | some (JVal.str s) =>
          if (st.fs s).isSome then (Except.ok (config, s), st)
          else
            let url := afUrl (basename s)
            let st1 : St := { st with netCalls := st.netCalls ++ [url] }
            match oracle.fetch url with
            | some body => (Except.ok (config, s), { st1 with fs := fsWrite st1.fs s body })
            | none =>
                (Except.error "Failed to download required seed structure. Aborting.", st1)
      | _ =>
          -- a truthy non-string value makes `os.path.exists(seed_path)` raise,
          -- terminating the process before any request
          (Except.error "TypeError: seed_protein_file is not a path string", st)
    else (Except.error "seed_protein_file not defined in config.json", st)

/-- `seed_selector.py`: read the recorded seed accession (fatal if the file
is absent), strip it, build the AlphaFold filename and the path under
`../structures`, download the structure if absent (fatal on failure), then
— only after that — require `config.json`, set `seed_protein_file` to the
computed path, reset `active_site` to the placeholder `"1,2,3"`, and
persist the updated config back to the same `config.json` path. -/
def seedSelector (oracle : Oracle) (seedIdFile : Option String) (st : St) :
    Except String Config × St :=
  match seedIdFile with
  | none => (Except.error "Could not find query_seed_accession.txt.", st)
  | some content =>
    let acc := pyStrip content
    let fname := afFilename acc
    let path := pathJoin (pathJoin ".." "structures") fname
    let dl : Except String Unit × St :=
      if (st.fs path).isSome then (Except.ok (), st)
      else
        let url := afUrl fname
        let st1 : St := { st with netCalls := st.netCalls ++ [url] }
        match oracle.fetch url with
        | some body => (Except.ok (), { st1 with fs := fsWrite st1.fs path body })
        | none => (Except.error "Failed to download seed structure.", st1)
    match dl with
    | (Except.error e, st1) => (Except.error e, st1)
    | (Except.ok _, st1) =>
      match st1.configFile with
      | none => (Except.error "Could not find config.json.", st1)
      | some config =>
          let config1 := cfgSet config "seed_protein_file" (JVal.str path)
          let config2 := cfgSet config1 "active_site" (JVal.str "1,2,3")
          (Except.ok config2, { st1 with configFile := some config2 })

/-- The required scalar config fields of the ActSeek command, in the order
the command list reads them. -/
def requiredKeys : List String :=
  ["active_site", "selected_active", "aa_grouping", "random_seed",
   "threshold", "threshold_combinations", "aa_surrounding",
   "aa_surrounding_threshold", "threshold_others", "iterations",
   "first_in_file", "max_protein", "protein_file",
   "alphafold_proteins_path", "seed_protein_file", "path_results"]

/-- STEP 6: construct the ActSeek command list.  Each `config[...]` access
raises `KeyError` when the key is absent (an uncaught, fatal error, so the
result is `Except`).  The three optional boolean flags are appended with
`config.get(...)` truthiness, in declaration order. -/
def actseekCommand (config : Config) : Except String (List JVal) :=
  match cfgGet config "active_site" with
  | none => Except.error "KeyError: active_site"
  | some vA =>
  match cfgGet config "selected_active" with
  | none => Except.error "KeyError: selected_active"
  | some vSa =>
  match cfgGet config "aa_grouping" with
  | none => Except.error "KeyError: aa_grouping"
  | some vG =>
  match cfgGet config "random_seed" with
  | none => Except.error "KeyError: random_seed"
  | some vR =>
  match cfgGet config "threshold" with
  | none => Except.error "KeyError: threshold"
  | some vT1 =>
  match cfgGet config "threshold_combinations" with
  | none => Except.error "KeyError: threshold_combinations"
  | some vT1c =>
  match cfgGet config "aa_surrounding" with
  | none => Except.error "KeyError: aa_surrounding"
  | some vT2 =>
  match cfgGet config "aa_surrounding_threshold" with
  | none => Except.error "KeyError: aa_surrounding_threshold"
  | some vT2t =>
  match cfgGet config "threshold_others" with
  | none => Except.error "KeyError: threshold_others"
  | some vT3 =>
  match cfgGet config "iterations" with
  | none => Except.error "KeyError: iterations"
  | some vI =>
  match cfgGet config "first_in_file" with
  | none => Except.error "KeyError: first_in_file"
  | some vF =>
  match cfgGet config "max_protein" with
  | none => Except.error "KeyError: max_protein"
  | some vM =>
  match cfgGet config "protein_file" with
  | none => Except.error "KeyError: protein_file"
  | some vS =>
  match cfgGet config "alphafold_proteins_path" with
  | none => Except.error "KeyError: alphafold_proteins_path"
  | some vAf =>
  match cfgGet config "seed_protein_file" with
  | none => Except.error "KeyError: seed_protein_file"
  | some vP =>
  match cfgGet config "path_results" with
  | none => Except.error "KeyError: path_results"
  | some vPr =>
    let cmd0 : List JVal :=
      [JVal.str "actseek",
       JVal.str "-a", vA,
       JVal.str "-sa", vSa,
       JVal.str "-g", JVal.str (jsonDumps vG),
       JVal.str "-r", JVal.str (pyStr vR),
       JVal.str "-t1", JVal.str (pyStr vT1),
       JVal.str "-t1c", JVal.str (pyStr vT1c),
       JVal.str "-t2", JVal.str (pyStr vT2),
       JVal.str "-t2t", JVal.str (pyStr vT2t),
       JVal.str "-t3", JVal.str (pyStr vT3),
       JVal.str "-i", JVal.str (pyStr vI),
       JVal.str "-f", JVal.str (pyStr vF),
       JVal.str "-m", JVal.str (pyStr vM),
       JVal.str "-s", vS,
       JVal.str "-af", vAf,
       JVal.str "-p", vP,
       JVal.str "-pr", vPr]
    let cmd1 := if pyTruthy (cfgGet config "delete_protein_files")
                then cmd0 ++ [JVal.str "-d"] else cmd0
    let cmd2 := if pyTruthy (cfgGet config "KVFinder")
                then cmd1 ++ [JVal.str "-kv"] else cmd1
    let cmd3 := if pyTruthy (cfgGet config "custom")
                then cmd2 ++ [JVal.str "-c"] else cmd2
    Except.ok cmd3

/-- The ResultLog path (`output_results_file`). -/
def outputResultsFile : String := "../results/actseek_results.txt"

/-- The content written to the result log on a non-zero exit status: the
fixed failure marker line, then the labeled captured streams. -/
def failureLog (out err : String) : String :=
  "ACTSEEK_BATCH_FAILED\n" ++ "\nSTDOUT:\n" ++ out ++ "\n" ++ "\nSTDERR:\n" ++ err ++ "\n"

/-- STEP 7: run ActSeek synchronously (`exec` maps the command to its exit
status, stdout and stderr), record the invocation, and overwrite the
result log: stdout verbatim on exit 0, the marker plus labeled streams on
a non-zero exit (the `CalledProcessError` is caught, so the script itself
continues normally in both cases). -/
def runStep (exec : List JVal → Int × String × String) (cmd : List JVal) (st : St) : St :=
  let rc := (exec cmd).1
  let out := (exec cmd).2.1
  let err := (exec cmd).2.2
  let st1 : St := { st with toolRuns := st.toolRuns ++ [cmd] }
  if rc = 0 then { st1 with fs := fsWrite st1.fs outputResultsFile out }
  else { st1 with fs := fsWrite st1.fs outputResultsFile (failureLog out err) }

/-- STEPs 6 and 7 combined: build the command; a `KeyError` at build time
terminates the process before ActSeek is invoked; otherwise run it. -/
def step6and7 (exec : List JVal → Int × String × String) (config : Config) (st : St) :
    Except String Unit × St :=
  match actseekCommand config with
  | Except.error e => (Except.error e, st)
  | Except.ok cmd => (Except.ok (), runStep exec cmd st)

/-! ### Helper lemmas -/

theorem string_data_inj {s t : String} (h : s.data = t.data) : s = t := by
  cases s; cases t; exact congrArg String.mk h

theorem afFilename_inj {a b : String} (h : afFilename a = afFilename b) : a = b := by
  unfold afFilename at h
  have h2 := congrArg String.data h
  simp only [String.data_append] at h2
  exact string_data_inj (List.append_cancel_left (List.append_cancel_right h2))

theorem candPath_inj {dir a b : String} (h : candPath dir a = candPath dir b) : a = b := by
  unfold candPath pathJoin at h
  have h2 := congrArg String.data h
  simp only [String.data_append] at h2
  exact afFilename_inj (string_data_inj (List.append_cancel_left h2))

theorem fetchStep_hit {oracle : Oracle} {dir acc : String} {st : St}
    (h : (st.fs (candPath dir acc)).isSome = true) :
    fetchStep oracle dir acc st = (some (candPath dir acc), st) := by
  unfold fetchStep
  simp [h]

theorem fetchStep_miss_ok {oracle : Oracle} {dir acc : String} {st : St} {body : String}
    (h : (st.fs (candPath dir acc)).isSome = false)
    (hf : oracle.fetch (candUrl acc) = some body) :
    fetchStep oracle dir acc st =
      (some (candPath dir acc),
       { st with netCalls := st.netCalls ++ [candUrl acc],
                 fs := fsWrite st.fs (candPath dir acc) body }) := by
  unfold fetchStep
  simp [h, hf]

theorem fetchStep_miss_fail {oracle : Oracle} {dir acc : String} {st : St}
    (h : (st.fs (candPath dir acc)).isSome = false)
    (hf : oracle.fetch (candUrl acc) = none) :
    fetchStep oracle dir acc st =
      (none, { st with netCalls := st.netCalls ++ [candUrl acc] }) := by
  unfold fetchStep
  simp [h, hf]

theorem step4Loop_snd (oracle : Oracle) (dir : String) :
    ∀ (accs : List String) (st : St), accs.Nodup →
      (step4Loop oracle dir accs st).2 = accs.filter (resolves oracle dir st) := by
  intro accs
  induction accs with
  | nil => intro st _; simp [step4Loop]
  | cons acc rest ih =>
    intro st hnd
    rw [List.nodup_cons] at hnd
    unfold step4Loop
    cases h : (st.fs (candPath dir acc)).isSome
    · cases hf : oracle.fetch (candUrl acc)
      · rw [fetchStep_miss_fail h hf]
        have hr : resolves oracle dir st acc = false := by
          simp [resolves, h, hf]
        simp only [List.filter_cons, hr, if_neg]
        simp only [Bool.false_eq_true, if_false]
        have := ih { st with netCalls := st.netCalls ++ [candUrl acc] } hnd.2
        exact this
      · rename_i body
        rw [fetchStep_miss_ok h hf]
        have hr : resolves oracle dir st acc = true := by
          simp [resolves, h, hf]
        simp only [List.filter_cons, hr, if_pos]
        have h2 := ih { st with netCalls := st.netCalls ++ [candUrl acc],
                                fs := fsWrite st.fs (candPath dir acc) body } hnd.2
        simp only [h2]
        simp only [List.cons.injEq, true_and]
        apply List.filter_congr
        intro a ha
        have hne : candPath dir a ≠ candPath dir acc := by
          intro hc
          exact hnd.1 (candPath_inj hc ▸ ha)
        simp [resolves, fsWrite, hne]
    · rw [fetchStep_hit h]
      have hr : resolves oracle dir st acc = true := by
        simp [resolves, h]
      simp only [List.filter_cons, hr, if_pos]
      simp only [List.cons.injEq, true_and]
      exact ih st hnd.2

/-! ### Claim theorems -/

/-- C1: Fetch is idempotent.  If the structure file of an accession already
exists at `join(localDir, "AF-{accession}-F1-model_v4.pdb")`, the fetch
operation returns that path immediately and leaves the state untouched (no
network call, no write); consequently a second fetch after any successful
fetch returns the same path and changes nothing, so it performs zero
network calls and the single local file at that path stays as it is. -/
theorem fetch_cache_hit_idempotent (oracle : Oracle) (dir acc : String) (st : St) :
    ((st.fs (candPath dir acc)).isSome = true →
      fetchStep oracle dir acc st = (some (candPath dir acc), st)) ∧
    (∀ p st1, fetchStep oracle dir acc st = (some p, st1) →
      fetchStep oracle dir acc st1 = (some p, st1) ∧
      (fetchStep oracle dir acc st1).2.netCalls = st1.netCalls ∧
      (fetchStep oracle dir acc st1).2.fs = st1.fs) := by
  constructor
  · intro h
    exact fetchStep_hit h
  · intro p st1 h
    have hsome : (st1.fs (candPath dir acc)).isSome = true ∧ p = candPath dir acc := by
      cases hc : (st.fs (candPath dir acc)).isSome
      · cases hf : oracle.fetch (candUrl acc)
        · rw [fetchStep_miss_fail hc hf] at h
          exact absurd (congrArg Prod.fst h) (by simp)
        · rw [fetchStep_miss_ok hc hf] at h
          have h1 := congrArg Prod.fst h
          have h2 := congrArg Prod.snd h
          simp only at h1 h2
          constructor
          · rw [← h2]; simp [fsWrite]
          · simp at h1; exact h1.symm
      · rw [fetchStep_hit hc] at h
        have h1 := congrArg Prod.fst h
        have h2 := congrArg Prod.snd h
        simp only at h1 h2
        constructor
        · rw [← h2]; exact hc
        · simp at h1; exact h1.symm
    rw [hsome.2, fetchStep_hit hsome.1]
    exact ⟨rfl, rfl, rfl⟩

/-- Witness for C1 at a concrete state: the structure file of `P1` is
present under directory `s`, so the fetch returns the computed path and
the state (filesystem, request log) is returned unchanged. -/
theorem fetch_cache_hit_idempotent_witness :
    fetchStep ⟨fun _ => some "BODY"⟩ "s" "P1"
      ⟨fun p => if p = "s/AF-P1-F1-model_v4.pdb" then some "X" else none, none, [], []⟩
    = (some (candPath "s" "P1"),
       ⟨fun p => if p = "s/AF-P1-F1-model_v4.pdb" then some "X" else none, none, [], []⟩) :=
  (fetch_cache_hit_idempotent ⟨fun _ => some "BODY"⟩ "s" "P1"
      ⟨fun p => if p = "s/AF-P1-F1-model_v4.pdb" then some "X" else none, none, [], []⟩).1
    (by decide)

/-- C2: After STEP 4, the manifest file holds exactly the accessions whose
structure file was resolved (cache hit or successful download), one per
line, in input order — the file is rewritten from scratch whatever its
prior content (the theorem holds for every starting state).  An accession
whose download fails is not in the manifest, while the remaining
accessions are still processed.  If the accession list is sorted (as
`sorted(set(...))` produces), the manifest order is that sorted order. -/
theorem manifest_exactly_successes (oracle : Oracle) (dir manifestPath : String)
    (accs : List String) (st : St) (hnd : accs.Nodup) :
    (step4 oracle dir manifestPath accs st).fs manifestPath =
      some (renderLines (accs.filter (resolves oracle dir st))) ∧
    (accs.Sorted (· ≤ ·) → (accs.filter (resolves oracle dir st)).Sorted (· ≤ ·)) := by
  constructor
  · unfold step4
    simp [fsWrite, step4Loop_snd oracle dir accs st hnd]
  · intro hs
    exact List.Sorted.filter _ hs

/-- Witness for C2 at a concrete run: `A1` is already on disk, `B2` fails
to download, `C3` downloads successfully; the manifest holds `A1` and `C3`
and not `B2`. -/
theorem manifest_exactly_successes_witness :
    (step4 ⟨fun u => if u = candUrl "B2" then none else some "BODY"⟩ "s" "m"
        ["A1", "B2", "C3"]
        ⟨fun p => if p = candPath "s" "A1" then some "OLD" else none, none, [], []⟩).fs "m" =
      some (renderLines (["A1", "B2", "C3"].filter
        (resolves ⟨fun u => if u = candUrl "B2" then none else some "BODY"⟩ "s"
          ⟨fun p => if p = candPath "s" "A1" then some "OLD" else none, none, [], []⟩))) :=
  (manifest_exactly_successes _ "s" "m" ["A1", "B2", "C3"] _ (by decide)).1

theorem afMatchAt_sound (l : List Char) (g : List Char) (h : afMatchAt l = some g) :
    g ≠ [] ∧ (∀ c ∈ g, isUpperAlnum c = true) ∧
    ∃ t, l = 'A' :: 'F' :: '-' :: (g ++ '-' :: t) := by
  rcases l with _ | ⟨a, _ | ⟨b, _ | ⟨c, rest⟩⟩⟩
  · simp [afMatchAt] at h
  · simp [afMatchAt] at h
  · simp [afMatchAt] at h
  · simp only [afMatchAt] at h
    by_cases hcond : a = 'A' ∧ b = 'F' ∧ c = '-'
    · rw [if_pos hcond] at h
      by_cases h2 : rest.takeWhile isUpperAlnum ≠ [] ∧
          (rest.dropWhile isUpperAlnum).head? = some '-'
      · rw [if_pos h2] at h
        have hg := Option.some.inj h
        obtain ⟨hne, hhd⟩ := h2
        refine ⟨by rw [← hg]; exact hne, ?_, ?_⟩
        · intro x hx
          rw [← hg] at hx
          exact List.mem_takeWhile_imp hx
        · cases hdrop : rest.dropWhile isUpperAlnum with
          | nil => rw [hdrop] at hhd; simp at hhd
          | cons d t =>
            rw [hdrop] at hhd
            simp only [List.head?_cons, Option.some.injEq] at hhd
            subst hhd
            obtain ⟨ha, hb, hc'⟩ := hcond
            subst ha; subst hb; subst hc'
            refine ⟨t, ?_⟩
            simp only [List.cons.injEq, true_and]
            rw [← hg, ← hdrop]
            exact (List.takeWhile_append_dropWhile _ _).symm
      · rw [if_neg h2] at h
        exact absurd h (by simp)
    · rw [if_neg hcond] at h
      exact absurd h (by simp)

theorem afSearch_sound (l : List Char) :
    ∀ g, afSearch l = some g →
      g ≠ [] ∧ (∀ c ∈ g, isUpperAlnum c = true) ∧
      ∃ s t, l = s ++ 'A' :: 'F' :: '-' :: (g ++ '-' :: t) := by
  induction l with
  | nil => intro g h; simp [afSearch] at h
  | cons c rest ih =>
    intro g h
    unfold afSearch at h
    cases hm : afMatchAt (c :: rest) with
    | some g' =>
      rw [hm] at h
      simp only [Option.some.injEq] at h
      subst h
      obtain ⟨h1, h2, t, ht⟩ := afMatchAt_sound _ _ hm
      exact ⟨h1, h2, [], t, by simpa using ht⟩
    | none =>
      rw [hm] at h
      simp only at h
      obtain ⟨h1, h2, s, t, ht⟩ := ih g h
      exact ⟨h1, h2, c :: s, t, by simp [ht]⟩

/-- C3: Accession extraction splits each stripped line on the tab
character, silently skips lines with fewer than two fields, extracts from
the second field the group captured by `AF-([A-Z0-9]+)-` (skipping lines
without a match, since `lineAccession` is `none` exactly when the search
is), and the final result is the deduplicated, lexicographically sorted
set of the raw matches: it is sorted, duplicate-free, has the same
members as the raw extraction, and literally equals
`sorted(set(extract_raw(X)))`.  Any string the search captures is a
non-empty run of `[A-Z0-9]` characters enclosed by a literal `AF-` and a
literal `-` somewhere in the field. -/
theorem extraction_dedup_sorted (lines : List String) :
    List.Sorted (· ≤ ·) (uniqueAccessions lines) ∧
    (uniqueAccessions lines).Nodup ∧
    (∀ a, a ∈ uniqueAccessions lines ↔ a ∈ extractAccessions lines) ∧
    uniqueAccessions lines = List.insertionSort (· ≤ ·) (extractAccessions lines).dedup ∧
    (∀ line, (splitTab (pyStrip line)).length < 2 → lineAccession line = none) ∧
    (∀ line p0 p1 rest, splitTab (pyStrip line) = p0 :: p1 :: rest →
        lineAccession line = (afSearch p1.data).map stringOfChars) ∧
    (∀ l g, afSearch l = some g →
        g ≠ [] ∧ (∀ c ∈ g, isUpperAlnum c = true) ∧
        ∃ s t, l = s ++ 'A' :: 'F' :: '-' :: (g ++ '-' :: t)) := by
  refine ⟨List.sorted_insertionSort _ _,
          ((List.perm_insertionSort _ _).nodup_iff).mpr (List.nodup_dedup _),
          fun a => ((List.perm_insertionSort _ _).mem_iff).trans List.mem_dedup,
          rfl, ?_, ?_, fun l g h => afSearch_sound l g h⟩
  · intro line hlen
    unfold lineAccession
    cases hp : splitTab (pyStrip line) with
    | nil => simp
    | cons p0 rest =>
      cases rest with
      | nil => simp
      | cons p1 r2 =>
        rw [hp] at hlen
        simp at hlen
        omega
  · intro line p0 p1 rest h
    simp only [lineAccession, h]

/-- Witness for C3: a line with a single field (no tab) is silently
skipped. -/
theorem extraction_dedup_sorted_witness : lineAccession "loneToken" = none :=
  (extraction_dedup_sorted []).2.2.2.2.1 "loneToken" (by decide)

/-- C4: If `seed_protein_file` is absent from the config, or present but
empty, STEP 5 terminates the process (`sys.exit`) with the field-missing
diagnostic, and the returned state is exactly the input state: no network
call for the seed (and no write) happens before the termination. -/
theorem missing_seed_field_fatal (oracle : Oracle) (st : St) (config : Config)
    (hc : st.configFile = some config)
    (hseed : cfgGet config "seed_protein_file" = none ∨
             cfgGet config "seed_protein_file" = some (JVal.str "")) :
    step5 oracle st = (Except.error "seed_protein_file not defined in config.json", st) := by
  have ht : pyTruthy (cfgGet config "seed_protein_file") = false := by
    cases hseed with
    | inl h => rw [h]; rfl
    | inr h => rw [h]; rfl
  simp [step5, hc, ht]

/-- Witness for C4: an empty config (no `seed_protein_file`) makes STEP 5
exit at once with the state untouched. -/
theorem missing_seed_field_fatal_witness :
    step5 ⟨fun _ => some "BODY"⟩ ⟨fun _ => none, some [], [], []⟩ =
      (Except.error "seed_protein_file not defined in config.json",
       ⟨fun _ => none, some [], [], []⟩) :=
  missing_seed_field_fatal ⟨fun _ => some "BODY"⟩ ⟨fun _ => none, some [], [], []⟩ []
    rfl (Or.inl rfl)

/-- C5 is false as stated: in the seed-selection stage the seed download is
attempted *before* `config.json` is checked.  At this concrete input the
config file is absent — a fatal configuration error that the stage does
eventually report — yet a seed network request has already been issued. -/
theorem seed_selector_downloads_before_config_check :
    (seedSelector ⟨fun _ => some "BODY"⟩ (some "Q9XYZ1")
        ⟨fun _ => none, none, [], []⟩).1 = Except.error "Could not find config.json." ∧
    (seedSelector ⟨fun _ => some "BODY"⟩ (some "Q9XYZ1")
        ⟨fun _ => none, none, [], []⟩).2.netCalls =
      ["https://alphafold.ebi.ac.uk/files/AF-Q9XYZ1-F1-model_v4.pdb"] := by
  constructor
  · rfl
  · rfl

/-- C5 (amended): In the main pipeline stage the configuration is validated
before any seed network request — a missing config file or a falsy
`seed_protein_file` terminates the run with the state unchanged.  In the
seed-selection stage, however, the seed download is attempted before
`config.json` is checked: whenever the seed structure file is absent, the
stage issues the seed network request regardless of the configuration. -/
theorem seed_validation_order (oracle : Oracle) (st : St) (config : Config) (content : String) :
    (st.configFile = none →
      step5 oracle st =
        (Except.error "config.json not found. Run the seed selector first.", st)) ∧
    (st.configFile = some config → pyTruthy (cfgGet config "seed_protein_file") = false →
      (step5 oracle st).2 = st) ∧
    (st.fs (pathJoin (pathJoin ".." "structures") (afFilename (pyStrip content))) = none →
      (seedSelector oracle (some content) st).2.netCalls =
        st.netCalls ++ [afUrl (afFilename (pyStrip content))]) := by
  refine ⟨?_, ?_, ?_⟩
  · intro h
    simp [step5, h]
  · intro hc ht
    simp [step5, hc, ht]
  · intro hfs
    unfold seedSelector
    simp only [hfs, Option.isSome_none, Bool.false_eq_true, if_false]
    cases hf : oracle.fetch (afUrl (afFilename (pyStrip content))) with
    | none => simp [hf]
    | some body =>
      simp only [hf]
      cases hcf : st.configFile with
      | none => simp [hcf]
      | some c2 => simp [hcf]

/-- Witness for C5 (amended) at a concrete state: with no config file, the
main-stage STEP 5 exits before making any request. -/
theorem seed_validation_order_witness :
    step5 ⟨fun _ => none⟩ ⟨fun _ => none, none, [], []⟩ =
      (Except.error "config.json not found. Run the seed selector first.",
       ⟨fun _ => none, none, [], []⟩) :=
  (seed_validation_order ⟨fun _ => none⟩ ⟨fun _ => none, none, [], []⟩ [] "X").1 rfl

theorem cfgGet_set_self (c : Config) (k : String) (v : JVal) :
    cfgGet (cfgSet c k v) k = some v := by
  induction c with
  | nil => simp [cfgSet, cfgGet]
  | cons kv rest ih =>
    obtain ⟨k', v'⟩ := kv
    by_cases h : k' = k
    · subst h; simp [cfgSet, cfgGet]
    · simp [cfgSet, cfgGet, h, ih]

theorem cfgGet_set_other (c : Config) (k k2 : String) (v : JVal) (hne : k ≠ k2) :
    cfgGet (cfgSet c k v) k2 = cfgGet c k2 := by
  induction c with
  | nil => simp [cfgSet, cfgGet, hne]
  | cons kv rest ih =>
    obtain ⟨k', v'⟩ := kv
    by_cases h : k' = k
    · subst h; simp [cfgSet, cfgGet, hne]
    · simp [cfgSet, cfgGet, h, ih]

/-- C9: For a recorded seed accession (the stripped content of the
seed-accession file), whenever the seed-selection stage reaches its config
update (the structure file is present, or its download succeeds), it
produces a config whose `seed_protein_file` is the join of the structures
directory with the filename `AF-{acc}-F1-model_v4.pdb`, whose
`active_site` is unconditionally the placeholder `"1,2,3"`, and persists
exactly that config back to the config-file slot it was read from. -/
theorem seed_selector_config_update (oracle : Oracle) (st : St) (config : Config)
    (content : String)
    (hc : st.configFile = some config)
    (hres : (st.fs (pathJoin (pathJoin ".." "structures")
                (afFilename (pyStrip content)))).isSome = true ∨
            (oracle.fetch (afUrl (afFilename (pyStrip content)))).isSome = true) :
    ∃ c2 : Config,
      (seedSelector oracle (some content) st).1 = Except.ok c2 ∧
      (seedSelector oracle (some content) st).2.configFile = some c2 ∧
      cfgGet c2 "seed_protein_file" =
        some (JVal.str (pathJoin (pathJoin ".." "structures")
          (afFilename (pyStrip content)))) ∧
      cfgGet c2 "active_site" = some (JVal.str "1,2,3") ∧
      afFilename (pyStrip content) = "AF-" ++ pyStrip content ++ "-F1-model_v4.pdb" := by
  refine ⟨cfgSet (cfgSet config "seed_protein_file"
      (JVal.str (pathJoin (pathJoin ".." "structures") (afFilename (pyStrip content)))))
      "active_site" (JVal.str "1,2,3"), ?_⟩
  have hget1 : cfgGet (cfgSet (cfgSet config "seed_protein_file"
      (JVal.str (pathJoin (pathJoin ".." "structures") (afFilename (pyStrip content)))))
      "active_site" (JVal.str "1,2,3")) "seed_protein_file" =
      some (JVal.str (pathJoin (pathJoin ".." "structures")
        (afFilename (pyStrip content)))) := by
    rw [cfgGet_set_other _ _ _ _ (by decide)]
    exact cfgGet_set_self _ _ _
  have hget2 : cfgGet (cfgSet (cfgSet config "seed_protein_file"
      (JVal.str (pathJoin (pathJoin ".." "structures") (afFilename (pyStrip content)))))
      "active_site" (JVal.str "1,2,3")) "active_site" = some (JVal.str "1,2,3") :=
    cfgGet_set_self _ _ _
  cases hfs : (st.fs (pathJoin (pathJoin ".." "structures")
      (afFilename (pyStrip content)))).isSome with
  | true =>
    unfold seedSelector
    simp only [hfs, if_true]
    simp [hc, hget1, hget2]
    rfl
  | false =>
    have hf : (oracle.fetch (afUrl (afFilename (pyStrip content)))).isSome = true := by
      cases hres with
      | inl h => rw [h] at hfs; exact absurd hfs (by simp)
      | inr h => exact h
    cases hfetch : oracle.fetch (afUrl (afFilename (pyStrip content))) with
    | none => rw [hfetch] at hf; exact absurd hf (by simp)
    | some body =>
      unfold seedSelector
      simp only [hfs, Bool.false_eq_true, if_false, hfetch]
      simp [hc, hget1, hget2]
      rfl

/-- Witness for C9: accession `Q9XYZ1`, no pre-existing structure file, a
succeeding download, and a config that already holds an `active_site`. -/
theorem seed_selector_config_update_witness :
    ∃ c2 : Config,
      (seedSelector ⟨fun _ => some "BODY"⟩ (some "Q9XYZ1")
        ⟨fun _ => none, some [("active_site", JVal.str "9,9")], [], []⟩).1 = Except.ok c2 ∧
      (seedSelector ⟨fun _ => some "BODY"⟩ (some "Q9XYZ1")
        ⟨fun _ => none, some [("active_site", JVal.str "9,9")], [], []⟩).2.configFile =
          some c2 ∧
      cfgGet c2 "seed_protein_file" =
        some (JVal.str (pathJoin (pathJoin ".." "structures")
          (afFilename (pyStrip "Q9XYZ1")))) ∧
      cfgGet c2 "active_site" = some (JVal.str "1,2,3") ∧
      afFilename (pyStrip "Q9XYZ1") = "AF-" ++ pyStrip "Q9XYZ1" ++ "-F1-model_v4.pdb" :=
  seed_selector_config_update ⟨fun _ => some "BODY"⟩
    ⟨fun _ => none, some [("active_site", JVal.str "9,9")], [], []⟩
    [("active_site", JVal.str "9,9")] "Q9XYZ1" rfl (Or.inr rfl)

/-- C6: On a zero exit status the result log is overwritten with exactly
the captured standard output; on a non-zero exit status it is overwritten
with the fixed failure marker line first, followed by the labeled captured
standard output and standard error, and the orchestrating script exits
normally (STEP 6/7 yields a normal outcome even for a failing tool run).
In both cases the invocation itself is recorded exactly once. -/
theorem run_log_success_failure (exec : List JVal → Int × String × String)
    (cmd : List JVal) (st : St) (rc : Int) (out err : String)
    (h : exec cmd = (rc, out, err)) :
    (rc = 0 → (runStep exec cmd st).fs outputResultsFile = some out) ∧
    (rc ≠ 0 →
      (runStep exec cmd st).fs outputResultsFile = some (failureLog out err) ∧
      ("ACTSEEK_BATCH_FAILED\n").data <+: (failureLog out err).data ∧
      ("\nSTDOUT:\n" ++ out ++ "\n").data <:+: (failureLog out err).data ∧
      ("\nSTDERR:\n" ++ err ++ "\n").data <:+ (failureLog out err).data) ∧
    (∀ config, actseekCommand config = Except.ok cmd →
      (step6and7 exec config st).1 = Except.ok ()) ∧
    (runStep exec cmd st).toolRuns = st.toolRuns ++ [cmd] := by
  have hdata : (failureLog out err).data =
      "ACTSEEK_BATCH_FAILED\n".data ++
        ("\nSTDOUT:\n".data ++ (out.data ++ ("\n".data ++
          ("\nSTDERR:\n".data ++ (err.data ++ "\n".data))))) := by
    simp [failureLog, String.data_append]
  refine ⟨?_, ?_, ?_, ?_⟩
  · intro h0
    simp [runStep, h, h0, fsWrite]
  · intro h0
    refine ⟨by simp [runStep, h, h0, fsWrite], ?_, ?_, ?_⟩
    · rw [hdata]
      exact List.prefix_append _ _
    · refine ⟨"ACTSEEK_BATCH_FAILED\n".data,
              "\nSTDERR:\n".data ++ (err.data ++ "\n".data), ?_⟩
      rw [hdata]
      simp [String.data_append]
    · refine ⟨"ACTSEEK_BATCH_FAILED\n".data ++ ("\nSTDOUT:\n".data ++ (out.data ++ "\n".data)), ?_⟩
      rw [hdata]
      simp [String.data_append]
  · intro config hok
    simp [step6and7, hok]
  · by_cases h0 : rc = 0 <;> simp [runStep, h, h0]

/-- Witness for C6: a run with exit status 2 and stderr `"bad input"`
leaves the marker-led failure log; the hypotheses `exec cmd = (2, "OK",
"bad input")` and `2 ≠ 0` are discharged at the concrete input. -/
theorem run_log_success_failure_witness :
    (runStep (fun _ => ((2 : Int), "OK", "bad input")) [] ⟨fun _ => none, none, [], []⟩).fs
        outputResultsFile = some (failureLog "OK" "bad input") ∧
    ("ACTSEEK_BATCH_FAILED\n").data <+: (failureLog "OK" "bad input").data ∧
    ("\nSTDOUT:\n" ++ "OK" ++ "\n").data <:+: (failureLog "OK" "bad input").data ∧
    ("\nSTDERR:\n" ++ "bad input" ++ "\n").data <:+ (failureLog "OK" "bad input").data :=
  (run_log_success_failure (fun _ => ((2 : Int), "OK", "bad input")) []
    ⟨fun _ => none, none, [], []⟩ 2 "OK" "bad input" rfl).2.1 (by decide)

theorem actseekCommand_isOk (c : Config) :
    (actseekCommand c).isOk = requiredKeys.all (fun k => (cfgGet c k).isSome) := by
  unfold actseekCommand
  cases h1 : cfgGet c "active_site"
  · simp [requiredKeys, h1, Except.isOk, Except.toBool]
  cases h2 : cfgGet c "selected_active"
  · simp [requiredKeys, h1, h2, Except.isOk, Except.toBool]
  cases h3 : cfgGet c "aa_grouping"
  · simp [requiredKeys, h1, h2, h3, Except.isOk, Except.toBool]
  cases h4 : cfgGet c "random_seed"
  · simp [requiredKeys, h1, h2, h3, h4, Except.isOk, Except.toBool]
  cases h5 : cfgGet c "threshold"
  · simp [requiredKeys, h1, h2, h3, h4, h5, Except.isOk, Except.toBool]
  cases h6 : cfgGet c "threshold_combinations"
  · simp [requiredKeys, h1, h2, h3, h4, h5, h6, Except.isOk, Except.toBool]
  cases h7 : cfgGet c "aa_surrounding"
  · simp [requiredKeys, h1, h2, h3, h4, h5, h6, h7, Except.isOk, Except.toBool]
  cases h8 : cfgGet c "aa_surrounding_threshold"
  · simp [requiredKeys, h1, h2, h3, h4, h5, h6, h7, h8, Except.isOk, Except.toBool]
  cases h9 : cfgGet c "threshold_others"
  · simp [requiredKeys, h1, h2, h3, h4, h5, h6, h7, h8, h9, Except.isOk, Except.toBool]
  cases h10 : cfgGet c "iterations"
  · simp [requiredKeys, h1, h2, h3, h4, h5, h6, h7, h8, h9, h10, Except.isOk, Except.toBool]
  cases h11 : cfgGet c "first_in_file"
  · simp [requiredKeys, h1, h2, h3, h4, h5, h6, h7, h8, h9, h10, h11,
      Except.isOk, Except.toBool]
  cases h12 : cfgGet c "max_protein"
  · simp [requiredKeys, h1, h2, h3, h4, h5, h6, h7, h8, h9, h10, h11, h12,
      Except.isOk, Except.toBool]
  cases h13 : cfgGet c "protein_file"
  · simp [requiredKeys, h1, h2, h3, h4, h5, h6, h7, h8, h9, h10, h11, h12, h13,
      Except.isOk, Except.toBool]
  cases h14 : cfgGet c "alphafold_proteins_path"
  · simp [requiredKeys, h1, h2, h3, h4, h5, h6, h7, h8, h9, h10, h11, h12, h13, h14,
      Except.isOk, Except.toBool]
  cases h15 : cfgGet c "seed_protein_file"
  · simp [requiredKeys, h1, h2, h3, h4, h5, h6, h7, h8, h9, h10, h11, h12, h13, h14, h15,
      Except.isOk, Except.toBool]
  cases h16 : cfgGet c "path_results"
  · simp [requiredKeys, h1, h2, h3, h4, h5, h6, h7, h8, h9, h10, h11, h12, h13, h14, h15,
      h16, Except.isOk, Except.toBool]
  simp [requiredKeys, h1, h2, h3, h4, h5, h6, h7, h8, h9, h10, h11, h12, h13, h14, h15,
    h16, Except.isOk, Except.toBool]

/-- C7: If any of the sixteen required scalar fields is absent from the
config, constructing the ActSeek command fails (`KeyError`, fatal at build
time), and the STEP 6/7 stage terminates with the state unchanged — in
particular the external tool is never invoked and no log is written. -/
theorem required_field_missing_fatal (c : Config) (k : String)
    (exec : List JVal → Int × String × String) (st : St)
    (hk : k ∈ requiredKeys) (hmiss : cfgGet c k = none) :
    (actseekCommand c).isOk = false ∧ (step6and7 exec c st).2 = st := by
  have hall : requiredKeys.all (fun k2 => (cfgGet c k2).isSome) = false := by
    cases hq : requiredKeys.all (fun k2 => (cfgGet c k2).isSome)
    · rfl
    · have h2 := List.all_eq_true.mp hq k hk
      rw [hmiss] at h2
      simp at h2
  have hok : (actseekCommand c).isOk = false := by
    rw [actseekCommand_isOk, hall]
  refine ⟨hok, ?_⟩
  cases hcmd : actseekCommand c with
  | error e => simp [step6and7, hcmd]
  | ok cmd =>
    rw [hcmd] at hok
    simp [Except.isOk, Except.toBool] at hok

/-- Witness for C7: the empty config is missing `active_site`, so the
command build fails and the tool stage leaves the state untouched. -/
theorem required_field_missing_fatal_witness :
    (actseekCommand []).isOk = false ∧
    (step6and7 (fun _ => ((0 : Int), "", "")) []
      ⟨fun _ => none, none, [], []⟩).2 = ⟨fun _ => none, none, [], []⟩ :=
  required_field_missing_fatal [] "active_site" (fun _ => ((0 : Int), "", ""))
    ⟨fun _ => none, none, [], []⟩ (by decide) rfl

/-- C8: The three optional boolean fields are not required (command
construction succeeds exactly when the sixteen required keys are present,
so their absence never raises), they are not among the required keys, and
whenever construction succeeds the command is the fixed seventeen
flag/value pairs followed by the three conditionally-appended standalone
flag tokens `-d`, `-kv`, `-c`, in that fixed declaration order at the end
of the command. -/
theorem optional_boolean_flags (c : Config) :
    ((actseekCommand c).isOk = requiredKeys.all (fun k => (cfgGet c k).isSome)) ∧
    ("delete_protein_files" ∉ requiredKeys ∧ "KVFinder" ∉ requiredKeys ∧
      "custom" ∉ requiredKeys) ∧
    (∀ vA vSa vG vR vT1 vT1c vT2 vT2t vT3 vI vF vM vS vAf vP vPr,
      cfgGet c "active_site" = some vA →
      cfgGet c "selected_active" = some vSa →
      cfgGet c "aa_grouping" = some vG →
      cfgGet c "random_seed" = some vR →
      cfgGet c "threshold" = some vT1 →
      cfgGet c "threshold_combinations" = some vT1c →
      cfgGet c "aa_surrounding" = some vT2 →
      cfgGet c "aa_surrounding_threshold" = some vT2t →
      cfgGet c "threshold_others" = some vT3 →
      cfgGet c "iterations" = some vI →
      cfgGet c "first_in_file" = some vF →
      cfgGet c "max_protein" = some vM →
      cfgGet c "protein_file" = some vS →
      cfgGet c "alphafold_proteins_path" = some vAf →
      cfgGet c "seed_protein_file" = some vP →
      cfgGet c "path_results" = some vPr →
      actseekCommand c = Except.ok
        ([JVal.str "actseek",
          JVal.str "-a", vA,
          JVal.str "-sa", vSa,
          JVal.str "-g", JVal.str (jsonDumps vG),
          JVal.str "-r", JVal.str (pyStr vR),
          JVal.str "-t1", JVal.str (pyStr vT1),
          JVal.str "-t1c", JVal.str (pyStr vT1c),
          JVal.str "-t2", JVal.str (pyStr vT2),
          JVal.str "-t2t", JVal.str (pyStr vT2t),
          JVal.str "-t3", JVal.str (pyStr vT3),
          JVal.str "-i", JVal.str (pyStr vI),
          JVal.str "-f", JVal.str (pyStr vF),
          JVal.str "-m", JVal.str (pyStr vM),
          JVal.str "-s", vS,
          JVal.str "-af", vAf,
          JVal.str "-p", vP,
          JVal.str "-pr", vPr] ++
         ((if pyTruthy (cfgGet c "delete_protein_files") then [JVal.str "-d"] else []) ++
          (if pyTruthy (cfgGet c "KVFinder") then [JVal.str "-kv"] else []) ++
          (if pyTruthy (cfgGet c "custom") then [JVal.str "-c"] else [])))) := by
  refine ⟨actseekCommand_isOk c, by refine ⟨?_, ?_, ?_⟩ <;> decide, ?_⟩
  intro vA vSa vG vR vT1 vT1c vT2 vT2t vT3 vI vF vM vS vAf vP vPr
  intro h1 h2 h3 h4 h5 h6 h7 h8 h9 h10 h11 h12 h13 h14 h15 h16
  unfold actseekCommand
  rw [h1, h2, h3, h4, h5, h6, h7, h8, h9, h10, h11, h12, h13, h14, h15, h16]
  by_cases b1 : pyTruthy (cfgGet c "delete_protein_files") <;>
    by_cases b2 : pyTruthy (cfgGet c "KVFinder") <;>
      by_cases b3 : pyTruthy (cfgGet c "custom") <;>
        simp [b1, b2, b3]

/-- A fully-populated demo config for the command-construction witnesses:
all sixteen required fields, `delete_protein_files` and `custom` set,
`KVFinder` absent (treated as false, not an error). -/
def demoConfig : Config :=
  [("active_site", JVal.str "1,2,3"),
   ("selected_active", JVal.str "A"),
   ("aa_grouping", JVal.obj []),
   ("random_seed", JVal.num 42),
   ("threshold", JVal.num 5),
   ("threshold_combinations", JVal.num 3),
   ("aa_surrounding", JVal.num 4),
   ("aa_surrounding_threshold", JVal.num 2),
   ("threshold_others", JVal.num 1),
   ("iterations", JVal.num 10),
   ("first_in_file", JVal.num 0),
   ("max_protein", JVal.num 100),
   ("protein_file", JVal.str "test.txt"),
   ("alphafold_proteins_path", JVal.str "../structures"),
   ("seed_protein_file", JVal.str "../structures/AF-Q9XYZ1-F1-model_v4.pdb"),
   ("path_results", JVal.str "../results"),
   ("delete_protein_files", JVal.bool true),
   ("custom", JVal.bool true)]

/-- Witness for C8: on the demo config the command is the base pairs
followed by the `-d` and `-c` flags (with `KVFinder` absent the `-kv` slot
is empty), obtained by discharging the sixteen lookup hypotheses. -/
theorem optional_boolean_flags_witness :
    actseekCommand demoConfig = Except.ok
      ([JVal.str "actseek",
        JVal.str "-a", JVal.str "1,2,3",
        JVal.str "-sa", JVal.str "A",
        JVal.str "-g", JVal.str (jsonDumps (JVal.obj [])),
        JVal.str "-r", JVal.str (pyStr (JVal.num 42)),
        JVal.str "-t1", JVal.str (pyStr (JVal.num 5)),
        JVal.str "-t1c", JVal.str (pyStr (JVal.num 3)),
        JVal.str "-t2", JVal.str (pyStr (JVal.num 4)),
        JVal.str "-t2t", JVal.str (pyStr (JVal.num 2)),
        JVal.str "-t3", JVal.str (pyStr (JVal.num 1)),
        JVal.str "-i", JVal.str (pyStr (JVal.num 10)),
        JVal.str "-f", JVal.str (pyStr (JVal.num 0)),
        JVal.str "-m", JVal.str (pyStr (JVal.num 100)),
        JVal.str "-s", JVal.str "test.txt",
        JVal.str "-af", JVal.str "../structures",
        JVal.str "-p", JVal.str "../structures/AF-Q9XYZ1-F1-model_v4.pdb",
        JVal.str "-pr", JVal.str "../results"] ++
       ((if pyTruthy (cfgGet demoConfig "delete_protein_files")
         then [JVal.str "-d"] else []) ++
        (if pyTruthy (cfgGet demoConfig "KVFinder") then [JVal.str "-kv"] else []) ++
        (if pyTruthy (cfgGet demoConfig "custom") then [JVal.str "-c"] else []))) :=
  (optional_boolean_flags demoConfig).2.2
    (JVal.str "1,2,3") (JVal.str "A") (JVal.obj []) (JVal.num 42) (JVal.num 5)
    (JVal.num 3) (JVal.num 4) (JVal.num 2) (JVal.num 1) (JVal.num 10) (JVal.num 0)
    (JVal.num 100) (JVal.str "test.txt") (JVal.str "../structures")
    (JVal.str "../structures/AF-Q9XYZ1-F1-model_v4.pdb") (JVal.str "../results")
    rfl rfl rfl rfl rfl rfl rfl rfl rfl rfl rfl rfl rfl rfl rfl rfl

/-- C10: A failed download never creates or modifies a file.  At each of
the three download sites (candidate structure, main-stage seed,
seed-selection seed), the file is opened for writing only after
`raise_for_status` has succeeded, so when the fetch fails the whole
filesystem — in particular the target path — is left exactly as it was. -/
theorem failed_download_atomic (oracle : Oracle) (dir acc : String) (st : St)
    (config : Config) (s content : String) :
    (st.fs (candPath dir acc) = none → oracle.fetch (candUrl acc) = none →
      (fetchStep oracle dir acc st).1 = none ∧
      ((fetchStep oracle dir acc st).2).fs = st.fs) ∧
    (st.configFile = some config →
      cfgGet config "seed_protein_file" = some (JVal.str s) → s ≠ "" →
      st.fs s = none → oracle.fetch (afUrl (basename s)) = none →
      (step5 oracle st).1 =
        Except.error "Failed to download required seed structure. Aborting." ∧
      ((step5 oracle st).2).fs = st.fs) ∧
    (st.fs (pathJoin (pathJoin ".." "structures") (afFilename (pyStrip content))) = none →
      oracle.fetch (afUrl (afFilename (pyStrip content))) = none →
      (seedSelector oracle (some content) st).1 =
        Except.error "Failed to download seed structure." ∧
      ((seedSelector oracle (some content) st).2).fs = st.fs) := by
  refine ⟨?_, ?_, ?_⟩
  · intro hfs hf
    rw [fetchStep_miss_fail (by simp [hfs]) hf]
    exact ⟨rfl, rfl⟩
  · intro hc hseed hne hfs hf
    simp [step5, hc, hseed, pyTruthy, hne, hfs, hf]
  · intro hfs hf
    simp [seedSelector, hfs, hf]

/-- Witness for C10 at a concrete input: every fetch fails and nothing is
on disk; the candidate fetch reports failure and the filesystem function
is returned unchanged. -/
theorem failed_download_atomic_witness :
    (fetchStep ⟨fun _ => none⟩ "s" "P1" ⟨fun _ => none, none, [], []⟩).1 = none ∧
    ((fetchStep ⟨fun _ => none⟩ "s" "P1" ⟨fun _ => none, none, [], []⟩).2).fs =
      (⟨fun _ => none, none, [], []⟩ : St).fs :=
  (failed_download_atomic ⟨fun _ => none⟩ "s" "P1" ⟨fun _ => none, none, [], []⟩
    [] "x" "y").1 rfl rfl
